import Mathlib

/-!
Verification development for `openmemory/api/repro_bug.py`: a diagnostic
script that demonstrates an ORM lazy-loading bug (accessing relationship
attributes of a `Memory` row after the database session is closed) and its
fix (eager loading via `joinedload` plus explicit response construction).

The script is embedded shallowly:
* process-global randomness (`uuid4`) and the clock (`datetime.now`) become
  an explicit `World` value threaded through the functions;
* the in-memory SQLite database becomes a record of row lists;
* observable side effects (console prints, database operations) become an
  explicit `Effect` trace;
* Python exceptions become `Except PyExc`, where a `PyExc` records the
  exception class name, its `str` message, and whether the class derives
  from `Exception` (so that `except Exception` handlers can decide whether
  they catch it);
* to reason about the script's exception routing, execution is parameterised
  by a `Fault` saying at which program point an extra exception is injected
  (`Fault.noFault` is the actual run).

The ORM models (`app.models`) and the response schema (`app.schemas`) are
imported by the script but are not part of the sources under verification;
they, and the relevant SQLAlchemy session semantics, are modelled from the
spec where indicated.
-/

namespace ReproBug

/-- A Python exception as observed by handlers: the class name
(`type(e).__name__`), the message (`str(e)`), and whether the class is a
subclass of `Exception` (a `KeyboardInterrupt`, for instance, is not, and
passes through `except Exception` blocks). -/
structure PyExc where
  name : String
  msg : String
  catchable : Bool
deriving Repr, DecidableEq

/-- Observable side effects of the script.  The constructors `fileWrite`,
`envSet` and `externalAccess` are in the vocabulary so that frame claims
about the script are non-vacuous; the script itself only ever emits
`consoleWrite` and `inMemoryDbOp`. -/
inductive Effect where
  | consoleWrite (s : String)
  | inMemoryDbOp (op : String)
  | fileWrite (path : String) (content : String)
  | envSet (key : String) (value : String)
  | externalAccess (what : String)
deriving Repr, DecidableEq

/-- `true` exactly on the two effect kinds the script is allowed to have:
console output and operations on the in-memory SQLite database. -/
def Effect.isConsoleOrInMemoryDb : Effect → Bool
  | .consoleWrite _ => true
  | .inMemoryDbOp _ => true
  | _ => false

/-- Modelled from the spec: the `MemoryState` enum of `app.models`; the
script only uses `active`, and the query filters on it. -/
inductive MemoryState where
  | active
  | paused
  | archived
  | deleted
deriving Repr, DecidableEq, BEq

/-- The `.value` of the state enum, as used for the `state` response field. -/
def MemoryState.value : MemoryState → String
  | .active => "active"
  | .paused => "paused"
  | .archived => "archived"
  | .deleted => "deleted"

/-- Modelled from the spec: a `users` row of `app.models`. -/
structure UserRow where
  id : Nat
  user_id : String
  email : String
deriving Repr, DecidableEq

/-- Modelled from the spec: an `apps` row of `app.models`; `owner_id`
references the owning user. -/
structure AppRow where
  id : Nat
  name : String
  owner_id : Nat
deriving Repr, DecidableEq

/-- Modelled from the spec: a `categories` row of `app.models`. -/
structure CategoryRow where
  id : Nat
  name : String
deriving Repr, DecidableEq

/-- Modelled from the spec: a `memories` row of `app.models`, with the
columns the script touches. -/
structure MemoryRow where
  id : Nat
  content : String
  user_id : Nat
  app_id : Nat
  state : MemoryState
  created_at : Nat
  metadata_ : List (String × String)
deriving Repr, DecidableEq

/-- The in-memory SQLite database: one list of rows per table, plus the
memory-category association table. -/
structure DB where
  users : List UserRow
  apps : List AppRow
  categories : List CategoryRow
  memories : List MemoryRow
  memoryCategories : List (Nat × Nat)
deriving Repr, DecidableEq

def DB.empty : DB := ⟨[], [], [], [], []⟩

/-- Process-global state of the run: the source of fresh uuids (`uuid4`)
and the wall clock (`datetime.now(UTC)`). -/
structure World where
  ctr : Nat
  now : Nat
deriving Repr, DecidableEq

/-- A fresh uuid: the next counter value. -/
def freshUuid (w : World) : Nat × World :=
  (w.ctr, { w with ctr := w.ctr + 1 })

/-- `create_test_database`: a fresh engine over `sqlite:///:memory:` with
all tables created.  The returned database is empty and private to the
caller. -/
def create_test_database : DB × List Effect :=
  (DB.empty,
   [Effect.inMemoryDbOp "create_engine sqlite memory",
    Effect.inMemoryDbOp "create_all"])

/-- The `for i in range(2)` category loop of `setup_test_data`: builds the
two category rows and adds them to the session. -/
def addCategoriesLoop (db : DB) (w : World) : List CategoryRow × DB × World :=
  (List.range 2).foldl
    (fun acc i =>
      let (cats, db, w) := acc
      let (cid, w) := freshUuid w
      let c : CategoryRow := ⟨cid, "category_" ++ toString (i + 1)⟩
      (cats ++ [c], { db with categories := db.categories ++ [c] }, w))
    ([], db, w)

/-- The `for i in range(3)` memory loop of `setup_test_data`: builds the
three memory rows, linking memory `i` to category `i` when `i < 2`. -/
def addMemoriesLoop (db : DB) (w : World) (userId appId : Nat)
    (cats : List CategoryRow) : List MemoryRow × DB × World :=
  (List.range 3).foldl
    (fun acc i =>
      let (mems, db, w) := acc
      let (mid, w) := freshUuid w
      let m : MemoryRow :=
        ⟨mid, "Test memory content " ++ toString (i + 1) ++ " for demonstrating the bug",
         userId, appId, MemoryState.active, w.now,
         [("test", "data_" ++ toString i), ("index", toString i)]⟩
      let db := { db with memories := db.memories ++ [m] }
      let db :=
        if i < 2 then
          { db with memoryCategories :=
              db.memoryCategories ++ [(mid, (cats.getD i ⟨0, ""⟩).id)] }
        else db
      (mems ++ [m], db, w))
    ([], db, w)

/-- `setup_test_data`: inserts one user, one app owned by it, two
categories and three active memories (first two linked to one category
each), commits, and returns `(user.id, app.id, [m.id for m in memories])`. -/
def setup_test_data (db : DB) (w : World) :
    (Nat × Nat × List Nat) × DB × World × List Effect :=
  let (userId, w) := freshUuid w
  let user : UserRow := ⟨userId, "test_user_repro", "test@repro.com"⟩
  let db := { db with users := db.users ++ [user] }
  let (appId, w) := freshUuid w
  let app : AppRow := ⟨appId, "Test App for Bug Reproduction", userId⟩
  let db := { db with apps := db.apps ++ [app] }
  let (cats, db, w) := addCategoriesLoop db w
  let (mems, db, w) := addMemoriesLoop db w userId appId cats
  let fx := [Effect.inMemoryDbOp "add user", Effect.inMemoryDbOp "flush",
             Effect.inMemoryDbOp "add app", Effect.inMemoryDbOp "flush",
             Effect.inMemoryDbOp "add categories", Effect.inMemoryDbOp "flush",
             Effect.inMemoryDbOp "add memories", Effect.inMemoryDbOp "commit"]
  ((userId, appId, mems.map (fun m => m.id)), db, w, fx)

/-- Loading state of a relationship attribute on an ORM instance: either
not yet loaded (lazy) or populated with its value. -/
inductive Loaded (α : Type) where
  | lazy
  | loaded (v : α)
deriving Repr, DecidableEq

/-- A `Memory` ORM instance as returned by `query.all()`: its column
attributes plus the `app` and `categories` relationship attributes. -/
structure MemoryObj where
  row : MemoryRow
  appRel : Loaded (Option AppRow)
  categoriesRel : Loaded (List CategoryRow)
deriving Repr, DecidableEq

/-- The relational reading of `Memory.app`: the app row whose id is the
memory's `app_id`, if any. -/
def appOfMemory (db : DB) (appId : Nat) : Option AppRow :=
  db.apps.find? (fun a => a.id == appId)

/-- The relational reading of `Memory.categories`: the category rows linked
to the memory through the association table. -/
def categoriesOfMemory (db : DB) (memId : Nat) : List CategoryRow :=
  (db.memoryCategories.filter (fun l => l.fst == memId)).filterMap
    (fun l => db.categories.find? (fun c => c.id == l.snd))

/-- The message of the SQLAlchemy error raised on lazy-loading a detached
instance (longer than 100 characters, so the script's truncation bites). -/
def detachedMsg : String :=
  "Instance Memory is not bound to a Session; lazy load operation of attribute cannot proceed because the parent instance has been detached"

def detachedInstanceError : PyExc := ⟨"DetachedInstanceError", detachedMsg, true⟩

/-- Modelled from the spec: accessing `memory.app`.  A loaded relationship
returns its value; a lazy one needs a live session, and raises
`DetachedInstanceError` when the session has been closed. -/
def accessApp (db : DB) (sessionOpen : Bool) (m : MemoryObj) :
    Except PyExc (Option AppRow) :=
  match m.appRel with
  | .loaded v => .ok v
  | .lazy =>
    if sessionOpen then .ok (appOfMemory db m.row.app_id)
    else .error detachedInstanceError

/-- Modelled from the spec: accessing `memory.categories`, with the same
session semantics as `accessApp`. -/
def accessCategories (db : DB) (sessionOpen : Bool) (m : MemoryObj) :
    Except PyExc (List CategoryRow) :=
  match m.categoriesRel with
  | .loaded v => .ok v
  | .lazy =>
    if sessionOpen then .ok (categoriesOfMemory db m.row.id)
    else .error detachedInstanceError

/-- Modelled from the spec: the Pydantic `MemoryResponse` of `app.schemas`,
with the fields the script populates. -/
structure MemoryResponse where
  id : Nat
  content : String
  created_at : Nat
  state : String
  app_id : Nat
  app_name : Option String
  categories : List String
  metadata_ : List (String × String)
deriving Repr, DecidableEq

/-- The `MemoryResponse(...)` construction of the bug demonstration:
`app_name=memory.app.name` (no null check, raising `AttributeError` when
the app is `None`) and `categories=[cat.name for cat in memory.categories]`.
Keyword arguments evaluate left to right, so `memory.app` is accessed
before `memory.categories`. -/
def buildMemoryResponseOriginal (db : DB) (sessionOpen : Bool) (m : MemoryObj) :
    Except PyExc MemoryResponse :=
  match accessApp db sessionOpen m with
  | .error e => .error e
  | .ok app =>
    match app with
    | none => .error (PyExc.mk "AttributeError" "NoneType object has no attribute name" true)
    | some a =>
      match accessCategories db sessionOpen m with
      | .error e => .error e
      | .ok cats =>
        .ok ⟨m.row.id, m.row.content, m.row.created_at, m.row.state.value,
             m.row.app_id, some a.name, cats.map (fun c => c.name), m.row.metadata_⟩

/-- The `MemoryResponse(...)` construction of the fix demonstration:
`created_at` explicitly converted, `app_name=memory.app.name if memory.app
else None` (null safety). -/
def buildMemoryResponseFixed (db : DB) (sessionOpen : Bool) (m : MemoryObj) :
    Except PyExc MemoryResponse :=
  match accessApp db sessionOpen m with
  | .error e => .error e
  | .ok app =>
    let appName : Option String :=
      match app with
      | some a => some a.name
      | none => none
    match accessCategories db sessionOpen m with
    | .error e => .error e
    | .ok cats =>
      .ok ⟨m.row.id, m.row.content, m.row.created_at, m.row.state.value,
           m.row.app_id, appName, cats.map (fun c => c.name), m.row.metadata_⟩

/-- The filter of both demonstrations:
`Memory.user_id == user_id, Memory.state == MemoryState.active`.
The two `outerjoin` calls do not change which `Memory` entities the legacy
`Query.all()` returns (left joins drop no rows and entity results are
deduplicated), so the query is embedded as this filter. -/
def queryActiveMemories (db : DB) (userId : Nat) : List MemoryRow :=
  db.memories.filter
    (fun m => m.user_id == userId && m.state == MemoryState.active)

/-- `query.all()` as seen by the caller: one ORM instance per matching row;
with `joinedload(Memory.app)` and `joinedload(Memory.categories)` in the
options (`eager = true`) the relationships come back loaded, otherwise
lazy. -/
def loadMemories (db : DB) (userId : Nat) (eager : Bool) : List MemoryObj :=
  (queryActiveMemories db userId).map
    (fun r =>
      if eager then
        ⟨r, .loaded (appOfMemory db r.app_id), .loaded (categoriesOfMemory db r.id)⟩
      else
        ⟨r, .lazy, .lazy⟩)

/-- A fault site: where (if anywhere) an extra exception is injected into
the run.  `noFault` is the actual execution.  `inBugBuild i e` and
`inFixBuild i e` make the `MemoryResponse` construction for the memory at
index `i` raise `e` instead; the other sites raise `e` at the start of the
corresponding region. -/
inductive Fault where
  | noFault
  | inBugSetup (e : PyExc)
  | inBugBuild (i : Nat) (e : PyExc)
  | inFixSetup (e : PyExc)
  | inFixBuild (i : Nat) (e : PyExc)
  | inDiff (e : PyExc)
deriving Repr, DecidableEq

/-- The exception a fault injects, if any. -/
def Fault.exc : Fault → Option PyExc
  | .noFault => none
  | .inBugSetup e => some e
  | .inBugBuild _ e => some e
  | .inFixSetup e => some e
  | .inFixBuild _ e => some e
  | .inDiff e => some e

/-- The banner separator printed by the script, sixty equals signs. -/
def sep60 : String := String.mk (List.replicate 60 '=')

/-- How an optional string renders inside a Python f-string: the string
itself, or `None`. -/
def pyStrOfOption : Option String → String
  | some s => s
  | none => "None"

/-- How a list of strings renders when printed. -/
def pyStrOfList (l : List String) : String :=
  "[" ++ String.intercalate ", " l ++ "]" 

/-- The per-memory loop of the bug demonstration.  For each memory (paired
with its zero-based index) it attempts the original `MemoryResponse`
construction; an `except Exception` block catches a raised exception,
prints its class name and its message truncated to 100 characters, sets
`failed = True`, and moves on to the next memory.  An exception the block
does not catch propagates out. -/
def bugLoop (db : DB) (f : Fault) :
    List (Nat × MemoryObj) → Bool → List Effect × Except PyExc Bool
  | [], failed => ([], .ok failed)
  | (i, m) :: rest, failed =>
    let attemptFx := Effect.consoleWrite
      ("Memory " ++ toString (i + 1) ++ ": Attempting to access memory.app.name...")
    let outcome : Except PyExc MemoryResponse :=
      match f with
      | .inBugBuild j e =>
        if j == i then .error e else buildMemoryResponseOriginal db false m
      | _ => buildMemoryResponseOriginal db false m
    match outcome with
    | .ok r =>
      let okFx := Effect.consoleWrite
        ("Success (unexpected!) - app_name: " ++ pyStrOfOption r.app_name)
      let (fx, res) := bugLoop db f rest failed
      ([attemptFx, okFx] ++ fx, res)
    | .error e =>
      if e.catchable then
        let errFx :=
          [Effect.consoleWrite ("FAILED: " ++ e.name),
           Effect.consoleWrite ("Error: " ++ e.msg.take 100 ++ "..."),
           Effect.consoleWrite "This is the bug! Cannot access relationships after session close"]
        let (fx, res) := bugLoop db f rest true
        ([attemptFx] ++ errFx ++ fx, res)
      else ([attemptFx], .error e)

/-- `reproduce_bug_without_fix`: build a fresh database and test data,
query the memories without eager loading, close the session, then try to
serialize each memory; returns `True` when at least one serialization
failed. -/
def reproduce_bug_without_fix (w : World) (f : Fault) :
    List Effect × Except PyExc (Bool × World) :=
  let bannerFx := [Effect.consoleWrite sep60,
                   Effect.consoleWrite "REPRODUCING THE BUG (WITHOUT FIX)",
                   Effect.consoleWrite sep60]
  let (db, dbFx) := create_test_database
  match f with
  | .inBugSetup e => (bannerFx ++ dbFx, .error e)
  | _ =>
    let ((userId, _appId, memoryIds), db, w, setupFx) := setup_test_data db w
    let createdFx := Effect.consoleWrite
      ("Created test data: " ++ toString memoryIds.length ++ " memories")
    let step1Fx := Effect.consoleWrite "Step 1: Query memories WITHOUT eager loading..."
    let memories := loadMemories db userId false
    let queryFx := Effect.inMemoryDbOp "query memories"
    let foundFx := Effect.consoleWrite
      ("Found " ++ toString memories.length ++ " memories")
    let closeFx :=
      [Effect.consoleWrite "Step 2: Close the database session (simulating pagination)...",
       Effect.inMemoryDbOp "session close",
       Effect.consoleWrite "Session closed"]
    let step3Fx :=
      [Effect.consoleWrite "Step 3: Try to serialize with Pydantic (accessing relationships)...",
       Effect.consoleWrite "This should fail because relationships were not eager-loaded!"]
    let (loopFx, loopRes) := bugLoop db f memories.enum false
    let leadFx := bannerFx ++ dbFx ++ setupFx ++
      [createdFx, step1Fx, queryFx, foundFx] ++ closeFx ++ step3Fx
    match loopRes with
    | .error e => (leadFx ++ loopFx, .error e)
    | .ok failed =>
      if failed then
        (leadFx ++ loopFx ++ [Effect.consoleWrite "Bug successfully reproduced!"],
         .ok (true, w))
      else
        (leadFx ++ loopFx ++
         [Effect.consoleWrite "Bug not reproduced - this might be SQLite-specific behavior"],
         .ok (false, w))

/-- The per-memory loop of the fix demonstration.  Each iteration attempts
the fixed `MemoryResponse` construction inside its own `except Exception`
block; the returned list records, in order, whether each memory serialized
successfully (`success_count` is the number of `true` entries). -/
def fixLoop (db : DB) (f : Fault) :
    List (Nat × MemoryObj) → List Effect × Except PyExc (List Bool)
  | [] => ([], .ok [])
  | (i, m) :: rest =>
    let attemptFx := Effect.consoleWrite
      ("Memory " ++ toString (i + 1) ++ ": Serializing with eager-loaded data...")
    let outcome : Except PyExc MemoryResponse :=
      match f with
      | .inFixBuild j e =>
        if j == i then .error e else buildMemoryResponseFixed db false m
      | _ => buildMemoryResponseFixed db false m
    match outcome with
    | .ok r =>
      let okFx := [Effect.consoleWrite ("Success - app_name: " ++ pyStrOfOption r.app_name),
                   Effect.consoleWrite ("categories: " ++ pyStrOfList r.categories)]
      let (fx, res) := fixLoop db f rest
      ([attemptFx] ++ okFx ++ fx, res.map (fun flags => true :: flags))
    | .error e =>
      if e.catchable then
        let errFx := [Effect.consoleWrite ("Failed: " ++ e.name ++ ": " ++ e.msg.take 100)]
        let (fx, res) := fixLoop db f rest
        ([attemptFx] ++ errFx ++ fx, res.map (fun flags => false :: flags))
      else ([attemptFx], .error e)

/-- `demonstrate_fix_with_eager_loading`: build a fresh database and test
data, query the memories with `joinedload(Memory.app)` and
`joinedload(Memory.categories)`, close the session, then serialize each
memory; returns `True` exactly when `success_count == len(memories)`. -/
def demonstrate_fix_with_eager_loading (w : World) (f : Fault) :
    List Effect × Except PyExc (Bool × World) :=
  let bannerFx := [Effect.consoleWrite sep60,
                   Effect.consoleWrite "DEMONSTRATING THE FIX (WITH EAGER LOADING)",
                   Effect.consoleWrite sep60]
  let (db, dbFx) := create_test_database
  match f with
  | .inFixSetup e => (bannerFx ++ dbFx, .error e)
  | _ =>
    let ((userId, _appId, memoryIds), db, w, setupFx) := setup_test_data db w
    let createdFx := Effect.consoleWrite
      ("Created test data: " ++ toString memoryIds.length ++ " memories")
    let step1Fx := Effect.consoleWrite "Step 1: Query memories WITH eager loading (the fix)..."
    let memories := loadMemories db userId true
    let queryFx := Effect.inMemoryDbOp "query memories"
    let foundFx := Effect.consoleWrite
      ("Found " ++ toString memories.length ++ " memories with relationships pre-loaded")
    let closeFx :=
      [Effect.consoleWrite "Step 2: Close the database session...",
       Effect.inMemoryDbOp "session close",
       Effect.consoleWrite "Session closed (but data is already loaded!)"]
    let step3Fx := Effect.consoleWrite "Step 3: Serialize with Pydantic (should work now)..."
    let (loopFx, loopRes) := fixLoop db f memories.enum
    let leadFx := bannerFx ++ dbFx ++ setupFx ++
      [createdFx, step1Fx, queryFx, foundFx] ++ closeFx ++ [step3Fx]
    match loopRes with
    | .error e => (leadFx ++ loopFx, .error e)
    | .ok flags =>
      let successCount := flags.count true
      if successCount == memories.length then
        (leadFx ++ loopFx ++
         [Effect.consoleWrite ("Fix confirmed: All " ++ toString successCount ++
            " memories serialized successfully!")],
         .ok (true, w))
      else
        (leadFx ++ loopFx ++
         [Effect.consoleWrite ("Partial success: " ++ toString successCount ++ "/" ++
            toString memories.length ++ " serialized")],
         .ok (false, w))

/-- The before/after code text printed by `show_the_actual_code_diff`
(the broken version of the endpoint). -/
def beforeCodeText : String :=
  "query = db.query(Memory).filter(...)\n" ++
  "query = query.outerjoin(App, Memory.app_id == App.id)\n" ++
  "query = query.outerjoin(Memory.categories)\n" ++
  "# Missing: query.options(joinedload(...))\n" ++
  "paginated_results = sqlalchemy_paginate(query, params)"

/-- The after text printed by `show_the_actual_code_diff` (the fixed
version of the endpoint, with eager loading and a transformer). -/
def afterCodeText : String :=
  "query = db.query(Memory).filter(...)\n" ++
  "query = query.outerjoin(App, Memory.app_id == App.id)\n" ++
  "query = query.outerjoin(Memory.categories)\n" ++
  "query = query.options(joinedload(Memory.app), joinedload(Memory.categories))\n" ++
  "paginated_results = sqlalchemy_paginate(query, params, transformer=...)"

/-- `show_the_actual_code_diff`: print the banner and the before/after code
blocks. -/
def show_the_actual_code_diff (f : Fault) : List Effect × Except PyExc Unit :=
  let bannerFx := [Effect.consoleWrite sep60,
                   Effect.consoleWrite "THE ACTUAL FIX IN memories.py",
                   Effect.consoleWrite sep60]
  match f with
  | .inDiff e => (bannerFx, .error e)
  | _ =>
    (bannerFx ++
     [Effect.consoleWrite "BEFORE (broken code):",
      Effect.consoleWrite beforeCodeText,
      Effect.consoleWrite "AFTER (fixed code):",
      Effect.consoleWrite afterCodeText], .ok ())

/-- The summary block printed at the end of `main`'s try body. -/
def summaryFx (bugReproduced fixWorks : Bool) : List Effect :=
  [Effect.consoleWrite sep60, Effect.consoleWrite "SUMMARY", Effect.consoleWrite sep60] ++
  (if bugReproduced then
     [Effect.consoleWrite "Bug successfully reproduced!",
      Effect.consoleWrite "The error occurs when relationships are not eagerly loaded and the session closes"]
   else
     [Effect.consoleWrite "Bug not directly reproduced",
      Effect.consoleWrite "(SQLite may behave differently than PostgreSQL)"]) ++
  (if fixWorks then
     [Effect.consoleWrite "Fix validated!",
      Effect.consoleWrite "Use joinedload to eagerly fetch relationships"]
   else []) ++
  [Effect.consoleWrite sep60]

/-- The body of `main`'s `try` block: the bug demonstration, then the fix
demonstration, then the code diff, then the summary.  An exception escaping
any of the three steps aborts the rest of the body. -/
def mainBody (w : World) (f : Fault) : List Effect × Except PyExc Unit :=
  let headerFx := [Effect.consoleWrite sep60,
                   Effect.consoleWrite " OpenMemory MCP - Pydantic Validation Bug Reproduction",
                   Effect.consoleWrite " Using actual models from openmemory/api/app/",
                   Effect.consoleWrite sep60,
                   Effect.consoleWrite "Part 1: Attempting to reproduce the bug..."]
  match reproduce_bug_without_fix w f with
  | (fx1, .error e) => (headerFx ++ fx1, .error e)
  | (fx1, .ok (bugReproduced, w)) =>
    let part2Fx := Effect.consoleWrite "Part 2: Demonstrating the fix..."
    match demonstrate_fix_with_eager_loading w f with
    | (fx2, .error e) => (headerFx ++ fx1 ++ [part2Fx] ++ fx2, .error e)
    | (fx2, .ok (fixWorks, _w)) =>
      match show_the_actual_code_diff f with
      | (fx3, .error e) => (headerFx ++ fx1 ++ [part2Fx] ++ fx2 ++ fx3, .error e)
      | (fx3, .ok _) =>
        (headerFx ++ fx1 ++ [part2Fx] ++ fx2 ++ fx3 ++ summaryFx bugReproduced fixWorks,
         .ok ())

/-- `main`: runs the try body under an `except Exception` handler that
prints the exception's type, its message, and a full traceback, and does
not re-raise.  An exception that is not an `Exception` subclass passes
through. -/
def main (w : World) (f : Fault) : List Effect × Except PyExc Unit :=
  match mainBody w f with
  | (fx, .ok _) => (fx, .ok ())
  | (fx, .error e) =>
    if e.catchable then
      (fx ++ [Effect.consoleWrite ("Unexpected error: " ++ e.name ++ ": " ++ e.msg),
              Effect.consoleWrite ("Traceback (most recent call last): " ++ e.name ++ ": " ++ e.msg)],
       .ok ())
    else (fx, .error e)

/-- The whole process: `python repro_bug.py` invoked with some argv and
environment.  The script never reads either (they are unused parameters,
exactly as in the source, which consults neither `sys.argv` nor
`os.environ`).  The exit code is 0 when `main` returns and 1 when an
exception escapes it uncaught. -/
def runScript (argv : List String) (env : List (String × String))
    (w : World) (f : Fault) : Nat × List Effect :=
  match main w f with
  | (fx, .ok _) => (0, fx)
  | (fx, .error _) => (1, fx)

/-- A Boolean subsequence test on effect traces, used to state that marker
effects occur in a given relative order. -/
def isSubseqOf : List Effect → List Effect → Bool
  | [], _ => true
  | _ :: _, [] => false
  | a :: as, b :: bs => if a == b then isSubseqOf as bs else isSubseqOf (a :: as) bs

/-- The effect trace of the bug demonstration (identical for every world). -/
def bugTraceFx : List Effect :=
  [Effect.consoleWrite sep60,
   Effect.consoleWrite "REPRODUCING THE BUG (WITHOUT FIX)",
   Effect.consoleWrite sep60,
   Effect.inMemoryDbOp "create_engine sqlite memory",
   Effect.inMemoryDbOp "create_all",
   Effect.inMemoryDbOp "add user",
   Effect.inMemoryDbOp "flush",
   Effect.inMemoryDbOp "add app",
   Effect.inMemoryDbOp "flush",
   Effect.inMemoryDbOp "add categories",
   Effect.inMemoryDbOp "flush",
   Effect.inMemoryDbOp "add memories",
   Effect.inMemoryDbOp "commit",
   Effect.consoleWrite "Created test data: 3 memories",
   Effect.consoleWrite "Step 1: Query memories WITHOUT eager loading...",
   Effect.inMemoryDbOp "query memories",
   Effect.consoleWrite "Found 3 memories",
   Effect.consoleWrite "Step 2: Close the database session (simulating pagination)...",
   Effect.inMemoryDbOp "session close",
   Effect.consoleWrite "Session closed",
   Effect.consoleWrite "Step 3: Try to serialize with Pydantic (accessing relationships)...",
   Effect.consoleWrite "This should fail because relationships were not eager-loaded!",
   Effect.consoleWrite "Memory 1: Attempting to access memory.app.name...",
   Effect.consoleWrite "FAILED: DetachedInstanceError",
   Effect.consoleWrite "Error: Instance Memory is not bound to a Session; lazy load operation of attribute cannot proceed because t...",
   Effect.consoleWrite "This is the bug! Cannot access relationships after session close",
   Effect.consoleWrite "Memory 2: Attempting to access memory.app.name...",
   Effect.consoleWrite "FAILED: DetachedInstanceError",
   Effect.consoleWrite "Error: Instance Memory is not bound to a Session; lazy load operation of attribute cannot proceed because t...",
   Effect.consoleWrite "This is the bug! Cannot access relationships after session close",
   Effect.consoleWrite "Memory 3: Attempting to access memory.app.name...",
   Effect.consoleWrite "FAILED: DetachedInstanceError",
   Effect.consoleWrite "Error: Instance Memory is not bound to a Session; lazy load operation of attribute cannot proceed because t...",
   Effect.consoleWrite "This is the bug! Cannot access relationships after session close",
   Effect.consoleWrite "Bug successfully reproduced!"]

/-- The effect trace of the fix demonstration (identical for every world). -/
def fixTraceFx : List Effect :=
  [Effect.consoleWrite sep60,
   Effect.consoleWrite "DEMONSTRATING THE FIX (WITH EAGER LOADING)",
   Effect.consoleWrite sep60,
   Effect.inMemoryDbOp "create_engine sqlite memory",
   Effect.inMemoryDbOp "create_all",
   Effect.inMemoryDbOp "add user",
   Effect.inMemoryDbOp "flush",
   Effect.inMemoryDbOp "add app",
   Effect.inMemoryDbOp "flush",
   Effect.inMemoryDbOp "add categories",
   Effect.inMemoryDbOp "flush",
   Effect.inMemoryDbOp "add memories",
   Effect.inMemoryDbOp "commit",
   Effect.consoleWrite "Created test data: 3 memories",
   Effect.consoleWrite "Step 1: Query memories WITH eager loading (the fix)...",
   Effect.inMemoryDbOp "query memories",
   Effect.consoleWrite "Found 3 memories with relationships pre-loaded",
   Effect.consoleWrite "Step 2: Close the database session...",
   Effect.inMemoryDbOp "session close",
   Effect.consoleWrite "Session closed (but data is already loaded!)",
   Effect.consoleWrite "Step 3: Serialize with Pydantic (should work now)...",
   Effect.consoleWrite "Memory 1: Serializing with eager-loaded data...",
   Effect.consoleWrite "Success - app_name: Test App for Bug Reproduction",
   Effect.consoleWrite "categories: [category_1]",
   Effect.consoleWrite "Memory 2: Serializing with eager-loaded data...",
   Effect.consoleWrite "Success - app_name: Test App for Bug Reproduction",
   Effect.consoleWrite "categories: [category_2]",
   Effect.consoleWrite "Memory 3: Serializing with eager-loaded data...",
   Effect.consoleWrite "Success - app_name: Test App for Bug Reproduction",
   Effect.consoleWrite "categories: []",
   Effect.consoleWrite "Fix confirmed: All 3 memories serialized successfully!"]

/-- The effect trace of `show_the_actual_code_diff` in the fault-free run. -/
def diffTraceFx : List Effect :=
  [Effect.consoleWrite sep60,
   Effect.consoleWrite "THE ACTUAL FIX IN memories.py",
   Effect.consoleWrite sep60,
   Effect.consoleWrite "BEFORE (broken code):",
   Effect.consoleWrite "query = db.query(Memory).filter(...)\nquery = query.outerjoin(App, Memory.app_id == App.id)\nquery = query.outerjoin(Memory.categories)\n# Missing: query.options(joinedload(...))\npaginated_results = sqlalchemy_paginate(query, params)",
   Effect.consoleWrite "AFTER (fixed code):",
   Effect.consoleWrite "query = db.query(Memory).filter(...)\nquery = query.outerjoin(App, Memory.app_id == App.id)\nquery = query.outerjoin(Memory.categories)\nquery = query.options(joinedload(Memory.app), joinedload(Memory.categories))\npaginated_results = sqlalchemy_paginate(query, params, transformer=...)"]

/-- The effect trace of the summary block when both demonstrations returned `True`. -/
def summaryTraceFx : List Effect :=
  [Effect.consoleWrite sep60,
   Effect.consoleWrite "SUMMARY",
   Effect.consoleWrite sep60,
   Effect.consoleWrite "Bug successfully reproduced!",
   Effect.consoleWrite "The error occurs when relationships are not eagerly loaded and the session closes",
   Effect.consoleWrite "Fix validated!",
   Effect.consoleWrite "Use joinedload to eagerly fetch relationships",
   Effect.consoleWrite sep60]

/-- The header and Part-1 announcement printed at the start of `main`. -/
def headerTraceFx : List Effect :=
  [Effect.consoleWrite sep60,
   Effect.consoleWrite " OpenMemory MCP - Pydantic Validation Bug Reproduction",
   Effect.consoleWrite " Using actual models from openmemory/api/app/",
   Effect.consoleWrite sep60,
   Effect.consoleWrite "Part 1: Attempting to reproduce the bug..."]

/-- The effect trace of the whole fault-free run of the script. -/
def scriptTraceFx : List Effect :=
  headerTraceFx ++ bugTraceFx ++
  [Effect.consoleWrite "Part 2: Demonstrating the fix..."] ++
  fixTraceFx ++ diffTraceFx ++ summaryTraceFx

/-- The database each demonstration queries: `setup_test_data` applied to
the fresh empty database of its own `create_test_database`. -/
def setupDb (w : World) : DB := (setup_test_data DB.empty w).2.1

def setupUserId (w : World) : Nat := (setup_test_data DB.empty w).1.1

def setupAppId (w : World) : Nat := (setup_test_data DB.empty w).1.2.1

def setupMemoryIds (w : World) : List Nat := (setup_test_data DB.empty w).1.2.2

/-- The memory row at index `i` (0, 1 or 2) inserted by `setup_test_data`
starting from world `w`. -/
def testMemRow (w : World) (i : Nat) : MemoryRow :=
  ⟨w.ctr + 4 + i, "Test memory content " ++ toString (i + 1) ++ " for demonstrating the bug",
   w.ctr, w.ctr + 1, MemoryState.active, w.now,
   [("test", "data_" ++ toString i), ("index", toString i)]⟩

/-- The app row inserted by `setup_test_data` starting from world `w`. -/
def testAppRow (w : World) : AppRow := ⟨w.ctr + 1, "Test App for Bug Reproduction", w.ctr⟩

/-- The category row at index `i` (0 or 1) inserted by `setup_test_data`
starting from world `w`. -/
def testCatRow (w : World) (i : Nat) : CategoryRow := ⟨w.ctr + 2 + i, "category_" ++ toString (i + 1)⟩

/-- `true` exactly on faults injected into the bug demonstration's
per-memory construction. -/
def Fault.isBugBuild : Fault → Bool
  | .inBugBuild _ _ => true
  | _ => false

/-- `true` exactly on faults injected into the fix demonstration's
per-memory construction. -/
def Fault.isFixBuild : Fault → Bool
  | .inFixBuild _ _ => true
  | _ => false

/-- The eager-loaded memory objects the fix demonstration serializes. -/
def fixMemories (w : World) : List MemoryObj := loadMemories (setupDb w) (setupUserId w) true

/-- The per-memory success flags of the fix demonstration's loop. -/
def fixLoopFlags (w : World) (f : Fault) : Except PyExc (List Bool) :=
  (fixLoop (setupDb w) f (fixMemories w).enum).2

/-- The user row inserted by `setup_test_data` starting from world `w`. -/
def testUserRow (w : World) : UserRow := ⟨w.ctr, "test_user_repro", "test@repro.com"⟩

/-- Decidable equality of `Except` results, used to evaluate run outcomes
on concrete inputs. -/
def exceptDecEq {e a : Type} [DecidableEq e] [DecidableEq a] :
    DecidableEq (Except e a)
  | .error x, .error y =>
    if h : x = y then isTrue (by rw [h]) else isFalse (by simp [h])
  | .error _, .ok _ => isFalse (by simp)
  | .ok _, .error _ => isFalse (by simp)
  | .ok x, .ok y =>
    if h : x = y then isTrue (by rw [h]) else isFalse (by simp [h])

instance {e a : Type} [DecidableEq e] [DecidableEq a] : DecidableEq (Except e a) :=
  exceptDecEq

/-!
## Evaluation lemmas

The run of the script is symbolically evaluated at an arbitrary `World`
(uuid source and clock): the shape of every result below is independent of
the generated ids and timestamps.
-/

theorem beq_add_left (c a b : Nat) : ((c + a) == (c + b)) = (a == b) := by
  by_cases h : a = b
  · subst h; simp
  · have hab : (a == b) = false := beq_eq_false_iff_ne.mpr h
    have hcc : ((c + a) == (c + b)) = false := beq_eq_false_iff_ne.mpr (by omega)
    rw [hab, hcc]

/-- `setup_test_data` on a fresh empty database, evaluated: with the uuid
counter at `w.ctr`, the user gets id `w.ctr`, the app `w.ctr + 1`, the
categories `w.ctr + 2` and `w.ctr + 3`, and the memories `w.ctr + 4` to
`w.ctr + 6`. -/
theorem setup_empty_eval (w : World) :
    setup_test_data DB.empty w =
      ((w.ctr, w.ctr + 1, [w.ctr + 4, w.ctr + 5, w.ctr + 6]),
       ⟨[⟨w.ctr, "test_user_repro", "test@repro.com"⟩],
        [⟨w.ctr + 1, "Test App for Bug Reproduction", w.ctr⟩],
        [⟨w.ctr + 2, "category_1"⟩, ⟨w.ctr + 3, "category_2"⟩],
        [⟨w.ctr + 4, "Test memory content 1 for demonstrating the bug", w.ctr, w.ctr + 1, MemoryState.active, w.now, [("test", "data_0"), ("index", "0")]⟩,
         ⟨w.ctr + 5, "Test memory content 2 for demonstrating the bug", w.ctr, w.ctr + 1, MemoryState.active, w.now, [("test", "data_1"), ("index", "1")]⟩,
         ⟨w.ctr + 6, "Test memory content 3 for demonstrating the bug", w.ctr, w.ctr + 1, MemoryState.active, w.now, [("test", "data_2"), ("index", "2")]⟩],
        [(w.ctr + 4, w.ctr + 2), (w.ctr + 5, w.ctr + 3)]⟩,
       ⟨w.ctr + 7, w.now⟩,
       [Effect.inMemoryDbOp "add user", Effect.inMemoryDbOp "flush",
        Effect.inMemoryDbOp "add app", Effect.inMemoryDbOp "flush",
        Effect.inMemoryDbOp "add categories", Effect.inMemoryDbOp "flush",
        Effect.inMemoryDbOp "add memories", Effect.inMemoryDbOp "commit"]) := rfl

/-- The filtered query returns exactly the three inserted memories, in
insertion order: each of them is active and owned by the returned user. -/
theorem query_eval (w : World) :
    queryActiveMemories (setupDb w) (setupUserId w) =
      [testMemRow w 0, testMemRow w 1, testMemRow w 2] := by
  simp [queryActiveMemories, setupDb, setupUserId, setup_empty_eval, List.filter]
  rfl

/-- Without eager loading, `query.all()` hands back the three memories with
both relationship attributes unloaded. -/
theorem load_lazy_eval (w : World) :
    loadMemories (setupDb w) (setupUserId w) false =
      [⟨testMemRow w 0, .lazy, .lazy⟩, ⟨testMemRow w 1, .lazy, .lazy⟩,
       ⟨testMemRow w 2, .lazy, .lazy⟩] := by
  simp [loadMemories, query_eval]

/-- With `joinedload`, `query.all()` hands back the three memories with the
app and their categories pre-loaded: the first two carry their one category
each, the third none. -/
theorem load_eager_eval (w : World) :
    loadMemories (setupDb w) (setupUserId w) true =
      [⟨testMemRow w 0, .loaded (some (testAppRow w)), .loaded [testCatRow w 0]⟩,
       ⟨testMemRow w 1, .loaded (some (testAppRow w)), .loaded [testCatRow w 1]⟩,
       ⟨testMemRow w 2, .loaded (some (testAppRow w)), .loaded []⟩] := by
  simp only [loadMemories, query_eval]
  simp [setupDb, setup_empty_eval, appOfMemory, categoriesOfMemory, testMemRow,
        List.find?, List.filter, List.filterMap, Nat.add_assoc, beq_add_left]
  exact ⟨⟨rfl, rfl⟩, ⟨rfl, rfl⟩, rfl⟩

/-- The bug demonstration, evaluated at an arbitrary world: its effect
trace is the one of the reference world (it depends on no generated id),
it consumes seven uuids, and it returns `True`. -/
theorem bug_run_eval_aux (w : World) :
    reproduce_bug_without_fix w Fault.noFault =
      ((reproduce_bug_without_fix ⟨0, 0⟩ Fault.noFault).1,
       .ok (true, ⟨w.ctr + 7, w.now⟩)) := by
  simp [reproduce_bug_without_fix, create_test_database, setup_empty_eval,
        loadMemories, queryActiveMemories, List.filter, bugLoop, List.enum,
        List.enumFrom, buildMemoryResponseOriginal, accessApp, accessCategories,
        detachedInstanceError]
  rfl

set_option maxRecDepth 40000 in
theorem bugTraceFx_spec :
    (reproduce_bug_without_fix ⟨0, 0⟩ Fault.noFault).1 = bugTraceFx := by decide

theorem bug_run_eval (w : World) :
    reproduce_bug_without_fix w Fault.noFault =
      (bugTraceFx, .ok (true, ⟨w.ctr + 7, w.now⟩)) := by
  rw [bug_run_eval_aux w, bugTraceFx_spec]

/-- The fix demonstration, evaluated at an arbitrary world: its effect
trace is the one of the reference world, it consumes seven uuids, and it
returns `True`. -/
theorem fix_run_eval_aux (w : World) :
    demonstrate_fix_with_eager_loading w Fault.noFault =
      ((demonstrate_fix_with_eager_loading ⟨0, 0⟩ Fault.noFault).1,
       .ok (true, ⟨w.ctr + 7, w.now⟩)) := by
  simp [demonstrate_fix_with_eager_loading, create_test_database, setup_empty_eval,
        loadMemories, queryActiveMemories, List.filter, fixLoop, List.enum,
        List.enumFrom, buildMemoryResponseFixed, accessApp, accessCategories,
        appOfMemory, categoriesOfMemory, List.find?, List.filterMap,
        Nat.add_assoc, beq_add_left]
  rfl

set_option maxRecDepth 40000 in
theorem fixTraceFx_spec :
    (demonstrate_fix_with_eager_loading ⟨0, 0⟩ Fault.noFault).1 = fixTraceFx := by decide

theorem fix_run_eval (w : World) :
    demonstrate_fix_with_eager_loading w Fault.noFault =
      (fixTraceFx, .ok (true, ⟨w.ctr + 7, w.now⟩)) := by
  rw [fix_run_eval_aux w, fixTraceFx_spec]

/-- The diff printer in the fault-free run: its trace, and it raises
nothing. -/
theorem diff_run_eval :
    show_the_actual_code_diff Fault.noFault = (diffTraceFx, .ok ()) := rfl

/-- The bug demonstration's loop only inspects bug-build faults: under any
other fault it behaves as in the fault-free run. -/
theorem bugLoop_fault_other (db : DB) (f : Fault) (hf : f.isBugBuild = false) :
    ∀ (l : List (Nat × MemoryObj)) (failed : Bool),
      bugLoop db f l failed = bugLoop db Fault.noFault l failed := by
  intro l
  induction l with
  | nil => intro failed; rfl
  | cons hd tl ih =>
    intro failed
    obtain ⟨i, m⟩ := hd
    cases f with
    | inBugBuild j e => simp [Fault.isBugBuild] at hf
    | noFault => rfl
    | inBugSetup e => simp [bugLoop, ih]
    | inFixSetup e => simp [bugLoop, ih]
    | inFixBuild j e => simp [bugLoop, ih]
    | inDiff e => simp [bugLoop, ih]

/-- The fix demonstration's loop only inspects fix-build faults. -/
theorem fixLoop_fault_other (db : DB) (f : Fault) (hf : f.isFixBuild = false) :
    ∀ (l : List (Nat × MemoryObj)),
      fixLoop db f l = fixLoop db Fault.noFault l := by
  intro l
  induction l with
  | nil => rfl
  | cons hd tl ih =>
    obtain ⟨i, m⟩ := hd
    cases f with
    | inFixBuild j e => simp [Fault.isFixBuild] at hf
    | noFault => rfl
    | inBugSetup e => simp [fixLoop, ih]
    | inBugBuild j e => simp [fixLoop, ih]
    | inFixSetup e => simp [fixLoop, ih]
    | inDiff e => simp [fixLoop, ih]

/-- The bug demonstration ignores any fault that is neither a bug-setup
fault nor a bug-build fault. -/
theorem bug_run_fault_other (w : World) (f : Fault)
    (hb : f.isBugBuild = false) (hs : ∀ e, f ≠ Fault.inBugSetup e) :
    reproduce_bug_without_fix w f = reproduce_bug_without_fix w Fault.noFault := by
  cases f with
  | inBugSetup e => exact absurd rfl (hs e)
  | inBugBuild j e => simp [Fault.isBugBuild] at hb
  | noFault => rfl
  | inFixSetup e =>
    simp only [reproduce_bug_without_fix]
    rw [bugLoop_fault_other _ _ (by rfl)]
  | inFixBuild j e =>
    simp only [reproduce_bug_without_fix]
    rw [bugLoop_fault_other _ _ (by rfl)]
  | inDiff e =>
    simp only [reproduce_bug_without_fix]
    rw [bugLoop_fault_other _ _ (by rfl)]

/-- The fix demonstration ignores any fault that is neither a fix-setup
fault nor a fix-build fault. -/
theorem fix_run_fault_other (w : World) (f : Fault)
    (hb : f.isFixBuild = false) (hs : ∀ e, f ≠ Fault.inFixSetup e) :
    demonstrate_fix_with_eager_loading w f =
      demonstrate_fix_with_eager_loading w Fault.noFault := by
  cases f with
  | inFixSetup e => exact absurd rfl (hs e)
  | inFixBuild j e => simp [Fault.isFixBuild] at hb
  | noFault => rfl
  | inBugSetup e =>
    simp only [demonstrate_fix_with_eager_loading]
    rw [fixLoop_fault_other _ _ (by rfl)]
  | inBugBuild j e =>
    simp only [demonstrate_fix_with_eager_loading]
    rw [fixLoop_fault_other _ _ (by rfl)]
  | inDiff e =>
    simp only [demonstrate_fix_with_eager_loading]
    rw [fixLoop_fault_other _ _ (by rfl)]

/-- The diff printer ignores non-diff faults. -/
theorem diff_fault_other (f : Fault) (hs : ∀ e, f ≠ Fault.inDiff e) :
    show_the_actual_code_diff f = show_the_actual_code_diff Fault.noFault := by
  cases f with
  | inDiff e => exact absurd rfl (hs e)
  | noFault => rfl
  | inBugSetup e => rfl
  | inBugBuild j e => rfl
  | inFixSetup e => rfl
  | inFixBuild j e => rfl

/-- A fault at the start of the bug demonstration's setup: the banner and
database creation happen, then the exception escapes the function. -/
theorem bug_setup_fault_eval (w : World) (e : PyExc) :
    reproduce_bug_without_fix w (Fault.inBugSetup e) =
      ([Effect.consoleWrite sep60,
        Effect.consoleWrite "REPRODUCING THE BUG (WITHOUT FIX)",
        Effect.consoleWrite sep60,
        Effect.inMemoryDbOp "create_engine sqlite memory",
        Effect.inMemoryDbOp "create_all"], .error e) := rfl

/-- A fault at the start of the fix demonstration's setup: the banner and
database creation happen, then the exception escapes the function. -/
theorem fix_setup_fault_eval (w : World) (e : PyExc) :
    demonstrate_fix_with_eager_loading w (Fault.inFixSetup e) =
      ([Effect.consoleWrite sep60,
        Effect.consoleWrite "DEMONSTRATING THE FIX (WITH EAGER LOADING)",
        Effect.consoleWrite sep60,
        Effect.inMemoryDbOp "create_engine sqlite memory",
        Effect.inMemoryDbOp "create_all"], .error e) := rfl

/-- A fault inside `show_the_actual_code_diff`: the banner happens, then
the exception escapes the function. -/
theorem diff_fault_eval (e : PyExc) :
    show_the_actual_code_diff (Fault.inDiff e) =
      ([Effect.consoleWrite sep60,
        Effect.consoleWrite "THE ACTUAL FIX IN memories.py",
        Effect.consoleWrite sep60], .error e) := rfl

/-- Any catchable exception raised by the `MemoryResponse` construction in
the bug demonstration is caught by the per-memory handler: the run still
completes and reports the bug as reproduced. -/
theorem bug_build_fault_result (w : World) (i : Nat) (e : PyExc) (he : e.catchable = true) :
    (reproduce_bug_without_fix w (Fault.inBugBuild i e)).2 = .ok (true, ⟨w.ctr + 7, w.now⟩) := by
  by_cases hi : i < 3
  · interval_cases i <;>
      simp [reproduce_bug_without_fix, create_test_database, setup_empty_eval,
            loadMemories, queryActiveMemories, List.filter, bugLoop, List.enum,
            List.enumFrom, buildMemoryResponseOriginal, accessApp, accessCategories,
            detachedInstanceError, he]
  · have h0 : (i == 0) = false := by simp only [beq_eq_false_iff_ne, ne_eq]; omega
    have h1 : (i == 1) = false := by simp only [beq_eq_false_iff_ne, ne_eq]; omega
    have h2 : (i == 2) = false := by simp only [beq_eq_false_iff_ne, ne_eq]; omega
    simp [reproduce_bug_without_fix, create_test_database, setup_empty_eval,
          loadMemories, queryActiveMemories, List.filter, bugLoop, List.enum,
          List.enumFrom, buildMemoryResponseOriginal, accessApp, accessCategories,
          detachedInstanceError, h0, h1, h2]

/-- The per-memory handler of the bug demonstration logs the caught
exception class and its message truncated to 100 characters, and the loop
still visits every memory. -/
theorem bug_build_fault_trace (w : World) (i : Nat) (e : PyExc) (hi : i < 3) (he : e.catchable = true) :
    Effect.consoleWrite ("FAILED: " ++ e.name) ∈ (reproduce_bug_without_fix w (Fault.inBugBuild i e)).1 ∧
    Effect.consoleWrite ("Error: " ++ e.msg.take 100 ++ "...") ∈ (reproduce_bug_without_fix w (Fault.inBugBuild i e)).1 ∧
    ∀ k, k < 3 → Effect.consoleWrite ("Memory " ++ toString (k + 1) ++ ": Attempting to access memory.app.name...") ∈ (reproduce_bug_without_fix w (Fault.inBugBuild i e)).1 := by
  interval_cases i <;>
    refine ⟨?_, ?_, ?_⟩ <;>
    simp [reproduce_bug_without_fix, create_test_database, setup_empty_eval,
          loadMemories, queryActiveMemories, List.filter, bugLoop, List.enum,
          List.enumFrom, buildMemoryResponseOriginal, accessApp, accessCategories,
          detachedInstanceError, he]
  all_goals (intro k hk; interval_cases k <;> simp)

set_option maxRecDepth 40000 in
/-- The whole fault-free run, for any argv, environment and world: exit
code 0 and the reference effect trace. -/
theorem script_run_eval (argv : List String) (env : List (String × String))
    (w : World) :
    runScript argv env w Fault.noFault = (0, scriptTraceFx) := by
  have hb := bug_run_eval w
  have hf := fix_run_eval ⟨w.ctr + 7, w.now⟩
  simp only [runScript, main, mainBody, hb, hf, diff_run_eval]
  decide

/-- The derived equality test on states is reflexive at `active`. -/
theorem active_beq_active : (MemoryState.active == MemoryState.active) = true := rfl

/-- In the fault-free run every memory serializes. -/
theorem fixLoopFlags_noFault (w : World) :
    fixLoopFlags w Fault.noFault = .ok [true, true, true] := by
  simp [fixLoopFlags, fixMemories, load_eager_eval, fixLoop, List.enum, List.enumFrom,
        buildMemoryResponseFixed, accessApp, accessCategories, Except.map]

/-- With a catchable fault injected at a real index, exactly that memory
fails to serialize: fewer than all flags are true. -/
theorem fixLoopFlags_fault_lt (w : World) (i : Nat) (e : PyExc) (hi : i < 3) (he : e.catchable = true) :
    ∃ flags, fixLoopFlags w (Fault.inFixBuild i e) = .ok flags ∧
      flags.count true < flags.length ∧ flags.length = (fixMemories w).length := by
  interval_cases i
  · refine ⟨[false, true, true], ?_, by decide, ?_⟩
    · simp [fixLoopFlags, fixMemories, load_eager_eval, fixLoop, List.enum, List.enumFrom,
            buildMemoryResponseFixed, accessApp, accessCategories, he, Except.map]
    · simp [fixMemories, load_eager_eval]
  · refine ⟨[true, false, true], ?_, by decide, ?_⟩
    · simp [fixLoopFlags, fixMemories, load_eager_eval, fixLoop, List.enum, List.enumFrom,
            buildMemoryResponseFixed, accessApp, accessCategories, he, Except.map]
    · simp [fixMemories, load_eager_eval]
  · refine ⟨[true, true, false], ?_, by decide, ?_⟩
    · simp [fixLoopFlags, fixMemories, load_eager_eval, fixLoop, List.enum, List.enumFrom,
            buildMemoryResponseFixed, accessApp, accessCategories, he, Except.map]
    · simp [fixMemories, load_eager_eval]

/-- A catchable serialization fault at a real index makes the fix
demonstration return `False` (partial success). -/
theorem fix_build_fault_result_lt (w : World) (i : Nat) (e : PyExc) (hi : i < 3) (he : e.catchable = true) :
    (demonstrate_fix_with_eager_loading w (Fault.inFixBuild i e)).2 = .ok (false, ⟨w.ctr + 7, w.now⟩) := by
  interval_cases i <;>
    simp [demonstrate_fix_with_eager_loading, create_test_database, setup_empty_eval,
          loadMemories, queryActiveMemories, List.filter, fixLoop, List.enum,
          List.enumFrom, buildMemoryResponseFixed, accessApp, accessCategories,
          appOfMemory, categoriesOfMemory, List.find?, List.filterMap,
          Nat.add_assoc, beq_add_left, he, Except.map, active_beq_active]

/-- A fix-build fault whose index is out of range never fires: the fix
demonstration still returns `True`. -/
theorem fix_build_fault_result_ge (w : World) (i : Nat) (e : PyExc) (hi : 3 ≤ i) :
    (demonstrate_fix_with_eager_loading w (Fault.inFixBuild i e)).2 = .ok (true, ⟨w.ctr + 7, w.now⟩) := by
  have h0 : (i == 0) = false := by simp only [beq_eq_false_iff_ne, ne_eq]; omega
  have h1 : (i == 1) = false := by simp only [beq_eq_false_iff_ne, ne_eq]; omega
  have h2 : (i == 2) = false := by simp only [beq_eq_false_iff_ne, ne_eq]; omega
  simp [demonstrate_fix_with_eager_loading, create_test_database, setup_empty_eval,
        loadMemories, queryActiveMemories, List.filter, fixLoop, List.enum,
        List.enumFrom, buildMemoryResponseFixed, accessApp, accessCategories,
        appOfMemory, categoriesOfMemory, List.find?, List.filterMap,
        Nat.add_assoc, beq_add_left, h0, h1, h2, Except.map, active_beq_active]

/-- The process exit code is zero exactly when `main` returns normally. -/
theorem runScript_exit_iff (argv : List String) (env : List (String × String))
    (w : World) (f : Fault) :
    (runScript argv env w f).1 = 0 ↔ (main w f).2 = .ok () := by
  rcases h : main w f with ⟨fx, res⟩
  cases res with
  | ok u => cases u; simp [runScript, h]
  | error e => simp [runScript, h]

/-- In the fault-free run `main` returns normally. -/
theorem main_result_noFault (w : World) : (main w Fault.noFault).2 = .ok () := by
  have hb := bug_run_eval w
  have hf := fix_run_eval ⟨w.ctr + 7, w.now⟩
  simp only [main, mainBody, hb, hf, diff_run_eval]

/-- A catchable exception during the bug demonstration's setup reaches the
top-level handler, which prints type, message and traceback, and `main`
returns normally. -/
theorem main_inBugSetup_catches (w : World) (e : PyExc) (he : e.catchable = true) :
    (main w (Fault.inBugSetup e)).2 = .ok () ∧
    Effect.consoleWrite ("Unexpected error: " ++ e.name ++ ": " ++ e.msg) ∈ (main w (Fault.inBugSetup e)).1 ∧
    Effect.consoleWrite ("Traceback (most recent call last): " ++ e.name ++ ": " ++ e.msg) ∈ (main w (Fault.inBugSetup e)).1 := by
  refine ⟨?_, ?_, ?_⟩ <;> simp [main, mainBody, bug_setup_fault_eval, he]

/-- A catchable exception during the fix demonstration's setup reaches the
top-level handler, which prints type, message and traceback, and `main`
returns normally. -/
theorem main_inFixSetup_catches (w : World) (e : PyExc) (he : e.catchable = true) :
    (main w (Fault.inFixSetup e)).2 = .ok () ∧
    Effect.consoleWrite ("Unexpected error: " ++ e.name ++ ": " ++ e.msg) ∈ (main w (Fault.inFixSetup e)).1 ∧
    Effect.consoleWrite ("Traceback (most recent call last): " ++ e.name ++ ": " ++ e.msg) ∈ (main w (Fault.inFixSetup e)).1 := by
  have hb : reproduce_bug_without_fix w (Fault.inFixSetup e) =
      (bugTraceFx, .ok (true, ⟨w.ctr + 7, w.now⟩)) := by
    rw [bug_run_fault_other w _ (by rfl) (by intro e' h; simp at h)]
    exact bug_run_eval w
  refine ⟨?_, ?_, ?_⟩ <;> simp [main, mainBody, hb, fix_setup_fault_eval, he]

/-- A catchable exception during the diff printing reaches the top-level
handler, which prints type, message and traceback, and `main` returns
normally. -/
theorem main_inDiff_catches (w : World) (e : PyExc) (he : e.catchable = true) :
    (main w (Fault.inDiff e)).2 = .ok () ∧
    Effect.consoleWrite ("Unexpected error: " ++ e.name ++ ": " ++ e.msg) ∈ (main w (Fault.inDiff e)).1 ∧
    Effect.consoleWrite ("Traceback (most recent call last): " ++ e.name ++ ": " ++ e.msg) ∈ (main w (Fault.inDiff e)).1 := by
  have hb : reproduce_bug_without_fix w (Fault.inDiff e) =
      (bugTraceFx, .ok (true, ⟨w.ctr + 7, w.now⟩)) := by
    rw [bug_run_fault_other w _ (by rfl) (by intro e' h; simp at h)]
    exact bug_run_eval w
  have hf : demonstrate_fix_with_eager_loading ⟨w.ctr + 7, w.now⟩ (Fault.inDiff e) =
      (fixTraceFx, .ok (true, ⟨w.ctr + 7 + 7, w.now⟩)) := by
    rw [fix_run_fault_other _ _ (by rfl) (by intro e' h; simp at h)]
    exact fix_run_eval _
  refine ⟨?_, ?_, ?_⟩ <;> simp [main, mainBody, hb, hf, diff_fault_eval, he]

/-- A catchable exception in the bug demonstration's per-memory block is
caught locally; `main` still returns normally. -/
theorem main_inBugBuild_ok (w : World) (i : Nat) (e : PyExc) (he : e.catchable = true) :
    (main w (Fault.inBugBuild i e)).2 = .ok () := by
  rcases hr : reproduce_bug_without_fix w (Fault.inBugBuild i e) with ⟨fx1, res1⟩
  have h2 := bug_build_fault_result w i e he
  rw [hr] at h2
  subst h2
  have hf : demonstrate_fix_with_eager_loading ⟨w.ctr + 7, w.now⟩ (Fault.inBugBuild i e) =
      (fixTraceFx, .ok (true, ⟨w.ctr + 7 + 7, w.now⟩)) := by
    rw [fix_run_fault_other _ _ (by rfl) (by intro e' h; simp at h)]
    exact fix_run_eval _
  have hd : show_the_actual_code_diff (Fault.inBugBuild i e) = (diffTraceFx, .ok ()) := by
    rw [diff_fault_other _ (by intro e' h; simp at h)]
    exact diff_run_eval
  simp [main, mainBody, hr, hf, hd]

/-- A catchable exception in the fix demonstration's per-memory block is
caught locally; `main` still returns normally. -/
theorem main_inFixBuild_ok (w : World) (i : Nat) (e : PyExc) (he : e.catchable = true) :
    (main w (Fault.inFixBuild i e)).2 = .ok () := by
  have hb : reproduce_bug_without_fix w (Fault.inFixBuild i e) =
      (bugTraceFx, .ok (true, ⟨w.ctr + 7, w.now⟩)) := by
    rw [bug_run_fault_other w _ (by rfl) (by intro e' h; simp at h)]
    exact bug_run_eval w
  have hd : show_the_actual_code_diff (Fault.inFixBuild i e) = (diffTraceFx, .ok ()) := by
    rw [diff_fault_other _ (by intro e' h; simp at h)]
    exact diff_run_eval
  rcases hfx : demonstrate_fix_with_eager_loading ⟨w.ctr + 7, w.now⟩ (Fault.inFixBuild i e) with ⟨fx2, res2⟩
  by_cases hi : i < 3
  · have h2 := fix_build_fault_result_lt ⟨w.ctr + 7, w.now⟩ i e hi he
    rw [hfx] at h2
    subst h2
    simp [main, mainBody, hb, hfx, hd]
  · have h2 := fix_build_fault_result_ge ⟨w.ctr + 7, w.now⟩ i e (by omega)
    rw [hfx] at h2
    subst h2
    simp [main, mainBody, hb, hfx, hd]

/-!
## Claim theorems

One theorem per claim of the specification, each stated over the
definitions above.
-/

/-- C1: for every memory returned by the query without eager loading,
constructing a `MemoryResponse` after `session.close()` raises (at the
access to `memory.app`), so `reproduce_bug_without_fix` returns `True`;
and for every memory returned by the same query with
`joinedload(Memory.app)` and `joinedload(Memory.categories)`, constructing
the response after `session.close()` does not raise, so
`demonstrate_fix_with_eager_loading` returns `True`. -/
theorem claim_C1_lazy_raises_eager_serializes (w : World) :
    (∀ m ∈ loadMemories (setupDb w) (setupUserId w) false,
        buildMemoryResponseOriginal (setupDb w) false m = .error detachedInstanceError) ∧
    (reproduce_bug_without_fix w Fault.noFault).2 = .ok (true, ⟨w.ctr + 7, w.now⟩) ∧
    (∀ m ∈ loadMemories (setupDb w) (setupUserId w) true,
        ∃ r, buildMemoryResponseFixed (setupDb w) false m = .ok r) ∧
    (demonstrate_fix_with_eager_loading w Fault.noFault).2 = .ok (true, ⟨w.ctr + 7, w.now⟩) := by
  refine ⟨?_, by rw [bug_run_eval], ?_, by rw [fix_run_eval]⟩
  · rw [load_lazy_eval]
    intro m hm
    simp only [List.mem_cons, List.not_mem_nil, or_false] at hm
    rcases hm with rfl | rfl | rfl <;> rfl
  · rw [load_eager_eval]
    intro m hm
    simp only [List.mem_cons, List.not_mem_nil, or_false] at hm
    rcases hm with rfl | rfl | rfl <;> exact ⟨_, rfl⟩

/-- Witness for C1 at a concrete world and memory. -/
theorem claim_C1_witness :
    buildMemoryResponseOriginal (setupDb ⟨0, 0⟩) false
        ⟨testMemRow ⟨0, 0⟩ 0, .lazy, .lazy⟩ = .error detachedInstanceError ∧
    ∃ r, buildMemoryResponseFixed (setupDb ⟨0, 0⟩) false
        ⟨testMemRow ⟨0, 0⟩ 0, .loaded (some (testAppRow ⟨0, 0⟩)),
         .loaded [testCatRow ⟨0, 0⟩ 0]⟩ = .ok r :=
  ⟨(claim_C1_lazy_raises_eager_serializes ⟨0, 0⟩).1 _ (by simp [load_lazy_eval]),
   (claim_C1_lazy_raises_eager_serializes ⟨0, 0⟩).2.2.1 _ (by simp [load_eager_eval])⟩

/-- C2: the exit code is 0 exactly when `main` returns normally, and any
fault whose exception is an `Exception` subclass (in the bug demonstration,
the fix demonstration, or the diff printing) is caught inside `main`, so
the process still exits with code 0. -/
theorem claim_C2_exit_codes (argv : List String) (env : List (String × String))
    (w : World) (f : Fault) :
    ((runScript argv env w f).1 = 0 ↔ (main w f).2 = .ok ()) ∧
    (∀ e, f.exc = some e → e.catchable = true → (runScript argv env w f).1 = 0) := by
  refine ⟨runScript_exit_iff argv env w f, ?_⟩
  intro e hfe he
  rw [runScript_exit_iff]
  cases f with
  | noFault => exact main_result_noFault w
  | inBugSetup e' =>
    simp only [Fault.exc, Option.some.injEq] at hfe
    subst hfe
    exact (main_inBugSetup_catches w e' he).1
  | inBugBuild i e' =>
    simp only [Fault.exc, Option.some.injEq] at hfe
    subst hfe
    exact main_inBugBuild_ok w i e' he
  | inFixSetup e' =>
    simp only [Fault.exc, Option.some.injEq] at hfe
    subst hfe
    exact (main_inFixSetup_catches w e' he).1
  | inFixBuild i e' =>
    simp only [Fault.exc, Option.some.injEq] at hfe
    subst hfe
    exact main_inFixBuild_ok w i e' he
  | inDiff e' =>
    simp only [Fault.exc, Option.some.injEq] at hfe
    subst hfe
    exact (main_inDiff_catches w e' he).1

/-- Witness for C2 at a concrete catchable fault. -/
theorem claim_C2_witness :
    (runScript [] [] ⟨0, 0⟩ (Fault.inDiff ⟨"ValueError", "boom", true⟩)).1 = 0 :=
  (claim_C2_exit_codes [] [] ⟨0, 0⟩ (Fault.inDiff ⟨"ValueError", "boom", true⟩)).2
    ⟨"ValueError", "boom", true⟩ rfl rfl

/-- C3: if constructing the `MemoryResponse` for any memory of the bug
demonstration raises an `Exception`, the per-memory handler catches it,
logs the exception type name and its message truncated to 100 characters,
marks the run as failed (so it returns `True`), and continues with the
remaining memories (all three attempt lines are printed). -/
theorem claim_C3_bug_handler (w : World) (i : Nat) (e : PyExc)
    (hi : i < 3) (he : e.catchable = true) :
    (reproduce_bug_without_fix w (Fault.inBugBuild i e)).2 = .ok (true, ⟨w.ctr + 7, w.now⟩) ∧
    Effect.consoleWrite ("FAILED: " ++ e.name) ∈ (reproduce_bug_without_fix w (Fault.inBugBuild i e)).1 ∧
    Effect.consoleWrite ("Error: " ++ e.msg.take 100 ++ "...") ∈ (reproduce_bug_without_fix w (Fault.inBugBuild i e)).1 ∧
    ∀ k, k < 3 → Effect.consoleWrite ("Memory " ++ toString (k + 1) ++ ": Attempting to access memory.app.name...") ∈ (reproduce_bug_without_fix w (Fault.inBugBuild i e)).1 :=
  ⟨bug_build_fault_result w i e he, (bug_build_fault_trace w i e hi he).1,
   (bug_build_fault_trace w i e hi he).2.1, (bug_build_fault_trace w i e hi he).2.2⟩

/-- Witness for C3 at a concrete world, index and exception. -/
theorem claim_C3_witness :
    (reproduce_bug_without_fix ⟨0, 0⟩ (Fault.inBugBuild 0 ⟨"ValidationError", "boom", true⟩)).2 =
      .ok (true, ⟨7, 0⟩) :=
  (claim_C3_bug_handler ⟨0, 0⟩ 0 ⟨"ValidationError", "boom", true⟩ (by decide) rfl).1

set_option maxRecDepth 40000 in
/-- C4 counterexample: an `Exception` raised while constructing the
`MemoryResponse` of the second memory inside the fix demonstration is
outside the bug demonstration's per-memory handler, yet it does not reach
the top-level handler: it is caught by the fix demonstration's own
per-memory handler (its log line appears, the top-level handler's lines do
not), refuting the claim as stated. -/
theorem claim_C4_counterexample :
    (main ⟨0, 0⟩ (Fault.inFixBuild 1 ⟨"ValidationError", "boom", true⟩)).2 = .ok () ∧
    Effect.consoleWrite "Failed: ValidationError: boom" ∈
      (main ⟨0, 0⟩ (Fault.inFixBuild 1 ⟨"ValidationError", "boom", true⟩)).1 ∧
    Effect.consoleWrite "Unexpected error: ValidationError: boom" ∉
      (main ⟨0, 0⟩ (Fault.inFixBuild 1 ⟨"ValidationError", "boom", true⟩)).1 ∧
    Effect.consoleWrite "Traceback (most recent call last): ValidationError: boom" ∉
      (main ⟨0, 0⟩ (Fault.inFixBuild 1 ⟨"ValidationError", "boom", true⟩)).1 := by
  decide

/-- C4 (amended): every `Exception` raised inside `main` outside the
per-memory handlers of the two demonstrations (during either database
setup or during diff printing) propagates to the top-level handler, which
prints the exception type, its message and a traceback, and does not
re-raise: `main` returns normally. -/
theorem claim_C4_amended (w : World) (e : PyExc) (he : e.catchable = true) :
    ((main w (Fault.inBugSetup e)).2 = .ok () ∧
     Effect.consoleWrite ("Unexpected error: " ++ e.name ++ ": " ++ e.msg) ∈ (main w (Fault.inBugSetup e)).1 ∧
     Effect.consoleWrite ("Traceback (most recent call last): " ++ e.name ++ ": " ++ e.msg) ∈ (main w (Fault.inBugSetup e)).1) ∧
    ((main w (Fault.inFixSetup e)).2 = .ok () ∧
     Effect.consoleWrite ("Unexpected error: " ++ e.name ++ ": " ++ e.msg) ∈ (main w (Fault.inFixSetup e)).1 ∧
     Effect.consoleWrite ("Traceback (most recent call last): " ++ e.name ++ ": " ++ e.msg) ∈ (main w (Fault.inFixSetup e)).1) ∧
    ((main w (Fault.inDiff e)).2 = .ok () ∧
     Effect.consoleWrite ("Unexpected error: " ++ e.name ++ ": " ++ e.msg) ∈ (main w (Fault.inDiff e)).1 ∧
     Effect.consoleWrite ("Traceback (most recent call last): " ++ e.name ++ ": " ++ e.msg) ∈ (main w (Fault.inDiff e)).1) :=
  ⟨main_inBugSetup_catches w e he, main_inFixSetup_catches w e he, main_inDiff_catches w e he⟩

/-- Witness for the amended C4 at a concrete fault. -/
theorem claim_C4_witness :
    (main ⟨0, 0⟩ (Fault.inBugSetup ⟨"RuntimeError", "db gone", true⟩)).2 = .ok () ∧
    Effect.consoleWrite "Unexpected error: RuntimeError: db gone" ∈
      (main ⟨0, 0⟩ (Fault.inBugSetup ⟨"RuntimeError", "db gone", true⟩)).1 :=
  ⟨(claim_C4_amended ⟨0, 0⟩ ⟨"RuntimeError", "db gone", true⟩ rfl).1.1,
   (claim_C4_amended ⟨0, 0⟩ ⟨"RuntimeError", "db gone", true⟩ rfl).1.2.1⟩

set_option maxRecDepth 40000 in
/-- C5: `main` performs the bug demonstration, then the fix demonstration,
then the diff printing, in that order; within each demonstration the
database is created and the rows inserted (committed) before the query,
the query precedes the session close, and the close precedes the
serialization attempts. -/
theorem claim_C5_phase_order (argv : List String) (env : List (String × String)) (w : World) :
    (runScript argv env w Fault.noFault).2 = scriptTraceFx ∧
    isSubseqOf
      [Effect.consoleWrite "Part 1: Attempting to reproduce the bug...",
       Effect.consoleWrite "REPRODUCING THE BUG (WITHOUT FIX)",
       Effect.inMemoryDbOp "create_engine sqlite memory",
       Effect.inMemoryDbOp "create_all",
       Effect.inMemoryDbOp "add memories",
       Effect.inMemoryDbOp "commit",
       Effect.inMemoryDbOp "query memories",
       Effect.inMemoryDbOp "session close",
       Effect.consoleWrite "Memory 1: Attempting to access memory.app.name...",
       Effect.consoleWrite "Part 2: Demonstrating the fix...",
       Effect.consoleWrite "DEMONSTRATING THE FIX (WITH EAGER LOADING)",
       Effect.inMemoryDbOp "create_engine sqlite memory",
       Effect.inMemoryDbOp "create_all",
       Effect.inMemoryDbOp "add memories",
       Effect.inMemoryDbOp "commit",
       Effect.inMemoryDbOp "query memories",
       Effect.inMemoryDbOp "session close",
       Effect.consoleWrite "Memory 1: Serializing with eager-loaded data...",
       Effect.consoleWrite "THE ACTUAL FIX IN memories.py"]
      scriptTraceFx = true := by
  refine ⟨by rw [script_run_eval argv env w], by decide⟩

set_option maxRecDepth 40000 in
/-- C6: the whole run has no side effects besides console output and
in-memory database operations: no file writes, no environment mutation,
no external access. -/
theorem claim_C6_frame (argv : List String) (env : List (String × String)) (w : World) :
    (runScript argv env w Fault.noFault).2.all Effect.isConsoleOrInMemoryDb = true ∧
    ∀ eff ∈ (runScript argv env w Fault.noFault).2,
      (∀ p c, eff ≠ Effect.fileWrite p c) ∧ (∀ k v, eff ≠ Effect.envSet k v) ∧
      (∀ x, eff ≠ Effect.externalAccess x) := by
  have h2 : (runScript argv env w Fault.noFault).2 = scriptTraceFx := by
    rw [script_run_eval argv env w]
  have hall : scriptTraceFx.all Effect.isConsoleOrInMemoryDb = true := by decide
  refine ⟨by rw [h2]; exact hall, ?_⟩
  intro eff heff
  rw [h2] at heff
  have hk := List.all_eq_true.mp hall eff heff
  cases eff <;> simp_all [Effect.isConsoleOrInMemoryDb]

set_option maxRecDepth 40000 in
/-- Witness for C6 at a concrete effect of the run. -/
theorem claim_C6_witness :
    (∀ p c, Effect.consoleWrite "SUMMARY" ≠ Effect.fileWrite p c) ∧
    (∀ k v, Effect.consoleWrite "SUMMARY" ≠ Effect.envSet k v) ∧
    (∀ x, Effect.consoleWrite "SUMMARY" ≠ Effect.externalAccess x) :=
  (claim_C6_frame [] [] ⟨0, 0⟩).2 (Effect.consoleWrite "SUMMARY") (by decide)

/-- C7: the script reads neither argv nor the environment: two invocations
differing only in argv and environment behave identically (same exit code
and same effect trace) for the same world of generated uuids and
timestamps. -/
theorem claim_C7_ignores_argv_env (argv1 : List String) (env1 : List (String × String))
    (argv2 : List String) (env2 : List (String × String)) (w : World) (f : Fault) :
    runScript argv1 env1 w f = runScript argv2 env2 w f := rfl

/-- C8: on every call, `setup_test_data` inserts exactly one user, one app
owned by that user, two categories and three active memories of that user
and app, links the first two memories to one distinct category each and
the third to none, commits, and returns the user id, the app id and the
three memory ids in insertion order. -/
theorem claim_C8_setup_contents (db : DB) (w : World) :
    ∃ u a c1 c2 m1 m2 m3,
      setup_test_data db w =
        ((u.id, a.id, [m1.id, m2.id, m3.id]),
         ⟨db.users ++ [u], db.apps ++ [a], db.categories ++ [c1, c2],
          db.memories ++ [m1, m2, m3],
          db.memoryCategories ++ [(m1.id, c1.id), (m2.id, c2.id)]⟩,
         ⟨w.ctr + 7, w.now⟩,
         [Effect.inMemoryDbOp "add user", Effect.inMemoryDbOp "flush",
          Effect.inMemoryDbOp "add app", Effect.inMemoryDbOp "flush",
          Effect.inMemoryDbOp "add categories", Effect.inMemoryDbOp "flush",
          Effect.inMemoryDbOp "add memories", Effect.inMemoryDbOp "commit"]) ∧
      a.owner_id = u.id ∧
      m1.state = MemoryState.active ∧ m2.state = MemoryState.active ∧ m3.state = MemoryState.active ∧
      m1.user_id = u.id ∧ m2.user_id = u.id ∧ m3.user_id = u.id ∧
      m1.app_id = a.id ∧ m2.app_id = a.id ∧ m3.app_id = a.id ∧
      c1.id ≠ c2.id ∧ m1.id ≠ m2.id ∧ m1.id ≠ m3.id ∧ m2.id ≠ m3.id ∧
      Effect.inMemoryDbOp "commit" ∈ (setup_test_data db w).2.2.2 := by
  have hsetup : setup_test_data db w =
      ((w.ctr, w.ctr + 1, [w.ctr + 4, w.ctr + 5, w.ctr + 6]),
       ⟨db.users ++ [testUserRow w], db.apps ++ [testAppRow w],
        (db.categories ++ [testCatRow w 0]) ++ [testCatRow w 1],
        ((db.memories ++ [testMemRow w 0]) ++ [testMemRow w 1]) ++ [testMemRow w 2],
        (db.memoryCategories ++ [(w.ctr + 4, w.ctr + 2)]) ++ [(w.ctr + 5, w.ctr + 3)]⟩,
       ⟨w.ctr + 7, w.now⟩,
       [Effect.inMemoryDbOp "add user", Effect.inMemoryDbOp "flush",
        Effect.inMemoryDbOp "add app", Effect.inMemoryDbOp "flush",
        Effect.inMemoryDbOp "add categories", Effect.inMemoryDbOp "flush",
        Effect.inMemoryDbOp "add memories", Effect.inMemoryDbOp "commit"]) := rfl
  refine ⟨testUserRow w, testAppRow w, testCatRow w 0, testCatRow w 1,
          testMemRow w 0, testMemRow w 1, testMemRow w 2, ?_, rfl,
          rfl, rfl, rfl, rfl, rfl, rfl, rfl, rfl, rfl,
          ?_, ?_, ?_, ?_, ?_⟩
  · rw [hsetup]
    simp [testUserRow, testAppRow, testCatRow, testMemRow, List.append_assoc,
          Nat.add_assoc]
  · simp [testCatRow]
  · simp [testMemRow]
  · simp [testMemRow]
  · simp [testMemRow]
  · rw [hsetup]
    simp

/-- C9: each demonstration builds its own fresh empty in-memory database
via `create_test_database`; the fix demonstration's trace and result are
the same for every starting world, in particular its result does not
depend on whether (or how) the bug demonstration ran before it. -/
theorem claim_C9_fix_demo_independent :
    create_test_database =
      (DB.empty, [Effect.inMemoryDbOp "create_engine sqlite memory",
                  Effect.inMemoryDbOp "create_all"]) ∧
    (∀ w : World, demonstrate_fix_with_eager_loading w Fault.noFault =
        (fixTraceFx, .ok (true, ⟨w.ctr + 7, w.now⟩))) ∧
    (∀ w w' : World,
      (demonstrate_fix_with_eager_loading w Fault.noFault).1 =
        (demonstrate_fix_with_eager_loading w' Fault.noFault).1 ∧
      ∀ b u b' u', (demonstrate_fix_with_eager_loading w Fault.noFault).2 = .ok (b, u) →
        (demonstrate_fix_with_eager_loading w' Fault.noFault).2 = .ok (b', u') → b = b') ∧
    (∀ (w w₁ : World) (b : Bool),
      (reproduce_bug_without_fix w Fault.noFault).2 = .ok (b, w₁) →
      (demonstrate_fix_with_eager_loading w₁ Fault.noFault).2 =
        .ok (true, ⟨w₁.ctr + 7, w₁.now⟩)) := by
  refine ⟨rfl, fun w => fix_run_eval w, fun w w' => ⟨?_, ?_⟩, ?_⟩
  · rw [fix_run_eval w, fix_run_eval w']
  · intro b u b' u' h h'
    rw [fix_run_eval w] at h
    rw [fix_run_eval w'] at h'
    simp only [Except.ok.injEq, Prod.mk.injEq] at h h'
    exact h.1.symm.trans h'.1
  · intro w w₁ b h
    rw [fix_run_eval w₁]

/-- Witness for C9: the fix demonstration run from the world left behind by
the bug demonstration still returns `True`. -/
theorem claim_C9_witness :
    (demonstrate_fix_with_eager_loading ⟨7, 0⟩ Fault.noFault).2 = .ok (true, ⟨14, 0⟩) :=
  claim_C9_fix_demo_independent.2.2.2 ⟨0, 0⟩ ⟨7, 0⟩ true (by rw [bug_run_eval])

/-- C10: the filtered query returns exactly the three memories inserted by
`setup_test_data` (all active and owned by the returned user), and the fix
demonstration returns `True` exactly when all returned memories serialize:
`True` with all flags true in the fault-free run, `False` with fewer than
all flags true when any one serialization fails. -/
theorem claim_C10_query_and_result_iff (w : World) (i : Nat) (e : PyExc)
    (hi : i < 3) (he : e.catchable = true) :
    ((queryActiveMemories (setupDb w) (setupUserId w)).map (fun m => m.id) =
        setupMemoryIds w) ∧
    (∀ m ∈ queryActiveMemories (setupDb w) (setupUserId w),
        m.state = MemoryState.active ∧ m.user_id = setupUserId w) ∧
    ((demonstrate_fix_with_eager_loading w Fault.noFault).2 = .ok (true, ⟨w.ctr + 7, w.now⟩) ∧
       fixLoopFlags w Fault.noFault = .ok [true, true, true]) ∧
    ((demonstrate_fix_with_eager_loading w (Fault.inFixBuild i e)).2 = .ok (false, ⟨w.ctr + 7, w.now⟩) ∧
       ∃ flags, fixLoopFlags w (Fault.inFixBuild i e) = .ok flags ∧
         flags.count true < flags.length ∧ flags.length = (fixMemories w).length) := by
  refine ⟨?_, ?_, ⟨by rw [fix_run_eval], fixLoopFlags_noFault w⟩,
          fix_build_fault_result_lt w i e hi he, fixLoopFlags_fault_lt w i e hi he⟩
  · rw [query_eval]
    simp [testMemRow, setupMemoryIds, setup_empty_eval]
  · rw [query_eval]
    intro m hm
    simp only [List.mem_cons, List.not_mem_nil, or_false] at hm
    rcases hm with rfl | rfl | rfl <;> exact ⟨rfl, rfl⟩

/-- Witness for C10 at a concrete world, index and exception. -/
theorem claim_C10_witness :
    (demonstrate_fix_with_eager_loading ⟨0, 0⟩ Fault.noFault).2 = .ok (true, ⟨7, 0⟩) ∧
    (demonstrate_fix_with_eager_loading ⟨0, 0⟩
        (Fault.inFixBuild 0 ⟨"ValidationError", "boom", true⟩)).2 = .ok (false, ⟨7, 0⟩) :=
  ⟨(claim_C10_query_and_result_iff ⟨0, 0⟩ 0 ⟨"ValidationError", "boom", true⟩ (by decide) rfl).2.2.1.1,
   (claim_C10_query_and_result_iff ⟨0, 0⟩ 0 ⟨"ValidationError", "boom", true⟩ (by decide) rfl).2.2.2.1⟩

end ReproBug
